import Mathlib

/-!
Verification of the Krystaly idle-clicker backend (src/app.py).

The server keeps one row per player in the PostgreSQL table
crystal_game_data and mutates it through a handful of Flask endpoints
(save_game, rebirth, open_mystery_box, claim_luck_bonus, leaderboard).
We embed the row as a structure, the table as an association list, and
each endpoint as a function from the table (plus the request parameters
and the values the endpoint draws from the random generator) to a typed
response together with the new table.  Failure paths return the table
unchanged, exactly as the Python code returns before issuing any UPDATE.

Python floats appearing in the source (math.log10 in the rebirth-point
formula, the 0.5 luck multiplier) are idealised as exact real/rational
arithmetic.
-/

namespace Krystaly

/-- One row of crystal_game_data, restricted to the columns the modelled
endpoints read or write (the unused supertokens, password, achievements
and created_at/updated_at columns are omitted).  Numeric columns are
integers; `lastluckbonus` is an optional timestamp in seconds (`none`
models SQL NULL, which Python treats as falsy in the cooldown check).
The default values are the column defaults of the CREATE TABLE statement
(`lastluckbonus` defaults in SQL to a concrete timestamp two hours in
the past; for fixtures we keep it explicit). -/
structure PlayerState where
  username : String := ""
  crystals : ℤ := 0
  lifetime_crystals : ℤ := 0
  autoclickers : ℤ := 0
  factories : ℤ := 0
  mines : ℤ := 0
  refineries : ℤ := 0
  quantumdrills : ℤ := 0
  magicwells : ℤ := 0
  starforges : ℤ := 0
  timeaccelerators : ℤ := 0
  voidharvesters : ℤ := 0
  clickpower : ℤ := 1
  totalclicks : ℤ := 0
  priceautoclicker : ℤ := 5
  pricefactory : ℤ := 50
  pricemine : ℤ := 500
  pricerefinery : ℤ := 5000
  pricequantumdrill : ℤ := 50000
  pricemagicwell : ℤ := 500000
  pricestarforge : ℤ := 5000000
  pricetimeaccelerator : ℤ := 50000000
  pricevoidharvester : ℤ := 1000000000
  priceclickpower : ℤ := 20
  rebirthcount : ℤ := 0
  rebirthpoints : ℤ := 0
  bonusclickpower : ℤ := 0
  bonusproduction : ℤ := 0
  bonusrebirthpoints : ℤ := 0
  lucklevel : ℤ := 0
  mysteryboxes : ℤ := 0
  lastluckbonus : Option ℤ := none
  deriving DecidableEq

/-- The player table: one (id, row) pair per player. -/
abbrev Table := List (ℤ × PlayerState)

/-- SELECT ... WHERE id = uid, first matching row. -/
def lookup : Table → ℤ → Option PlayerState
  | [], _ => none
  | r :: rs, uid => if r.1 = uid then some r.2 else lookup rs uid

/-- UPDATE ... WHERE id = uid: applies f to every row whose id matches. -/
def updateRow : Table → ℤ → (PlayerState → PlayerState) → Table
  | [], _, _ => []
  | r :: rs, uid, f => (if r.1 = uid then (r.1, f r.2) else r) :: updateRow rs uid f

/-- The reward drawn from a mystery box (type, amount, name in app.py). -/
inductive RewardKind
  | crystals
  | clickPower
  | productionBoost
  deriving DecidableEq

structure Reward where
  kind : RewardKind
  amount : ℤ
  name : String
  deriving DecidableEq

/-- The RETURNING row of the rebirth UPDATE plus the two computed values
the endpoint reports back. -/
structure RebirthResult where
  rebirthCount : ℤ
  rebirthPoints : ℤ
  luckLevel : ℤ
  gainedPoints : ℤ
  luckGained : ℤ
  deriving DecidableEq

/-- Typed rendering of the JSON responses of the modelled endpoints.
notFound is the 404 response with message Hrac nenalezen; noBoxes is the
400 response with message Nemas zadne mystery boxy. -/
inductive Response
  | notFound
  | insufficientCurrency (required : ℤ)
  | rebirthOk (r : RebirthResult)
  | noBoxes
  | boxOk (reward : Reward)
  | onCooldown (remaining : ℤ)
  | noLuckLevel
  | luckOk (bonus : ℤ) (gotBox : Bool)
  | saveOk
  deriving DecidableEq

/-! ### Rebirth engine (app.py, /rebirth) -/

/-- required_crystals = 100000 * (2 ** rebirth_count). -/
def requiredCrystals (n : ℕ) : ℤ := 100000 * 2 ^ n

/-- The rebirth-point formula of app.py:
if current_crystals > 0 then
max(1, floor((log10 c + c / 1000000) * (1 + bonus / 100))) else 1.
Python float arithmetic is idealised as real arithmetic. -/
noncomputable def rebirthPointsOf (crystals bonus : ℤ) : ℤ :=
  if 0 < crystals then
    max 1
      ⌊(Real.logb 10 (crystals : ℝ) + (crystals : ℝ) / 1000000) *
        (1 + (bonus : ℝ) / 100)⌋
  else 1

/-- luck_gained = 1 if randint(1,100) <= 35 else 0; the drawn integer is
passed in as roll. -/
def luckGainedOf (roll : ℤ) : ℤ := if roll ≤ 35 then 1 else 0

/-- The SET clause of the rebirth UPDATE applied to one row. -/
noncomputable def rebirthReset (s : PlayerState) (roll : ℤ) : PlayerState :=
  { s with
    crystals := 0
    autoclickers := 0
    factories := 0
    mines := 0
    refineries := 0
    quantumdrills := 0
    magicwells := 0
    starforges := 0
    timeaccelerators := 0
    voidharvesters := 0
    clickpower := 1
    priceautoclicker := 5
    pricefactory := 50
    pricemine := 500
    pricerefinery := 5000
    pricequantumdrill := 50000
    pricemagicwell := 500000
    pricestarforge := 5000000
    pricetimeaccelerator := 50000000
    pricevoidharvester := 1000000000
    priceclickpower := 20
    rebirthcount := s.rebirthcount + 1
    rebirthpoints := s.rebirthpoints + rebirthPointsOf s.crystals s.bonusrebirthpoints
    lucklevel := s.lucklevel + luckGainedOf roll }

/-- The /rebirth endpoint.  roll is the randint(1,100) draw for the luck
level.  A negative stored rebirthcount would make the Python expression
2 ** rebirth_count a float; the engines never produce one, and we model
the integer case via toNat. -/
noncomputable def rebirth (t : Table) (uid roll : ℤ) : Response × Table :=
  match lookup t uid with
  | none => (.notFound, t)
  | some s =>
    if s.crystals < requiredCrystals s.rebirthcount.toNat then
      (.insufficientCurrency (requiredCrystals s.rebirthcount.toNat), t)
    else
      (.rebirthOk
        ⟨s.rebirthcount + 1,
         s.rebirthpoints + rebirthPointsOf s.crystals s.bonusrebirthpoints,
         s.lucklevel + luckGainedOf roll,
         rebirthPointsOf s.crystals s.bonusrebirthpoints,
         luckGainedOf roll⟩,
       updateRow t uid (fun r => rebirthReset r roll))

/-! ### Reward engine (app.py, /open_mystery_box and /claim_luck_bonus) -/

/-- The random draws of open_mystery_box: the four randint amounts of the
rewards list and the random.choice index. -/
structure BoxRng where
  amtSmall : ℤ
  amtBig : ℤ
  amtClick : ℤ
  amtBoost : ℤ
  choice : Fin 4
  deriving DecidableEq

/-- The rewards list of open_mystery_box (names transliterated). -/
def rewardsOf (g : BoxRng) : List Reward :=
  [⟨.crystals, g.amtSmall, "Kristaly"⟩,
   ⟨.crystals, g.amtBig, "Velke mnozstvi kristalu"⟩,
   ⟨.clickPower, g.amtClick, "Sila kliku"⟩,
   ⟨.productionBoost, g.amtBoost, "Produkcni boost"⟩]

/-- reward = random.choice(rewards). -/
def chosenReward (g : BoxRng) : Reward :=
  (rewardsOf g).get ⟨g.choice.val, by simp [rewardsOf]⟩

/-- The /open_mystery_box endpoint.  The source merges the missing-player
and the no-boxes cases into one check
(if not row or (row[mysteryboxes] or 0) <= 0) that returns the 400
no-boxes response, so an absent player also gets noBoxes, not notFound. -/
def open_mystery_box (t : Table) (uid : ℤ) (g : BoxRng) : Response × Table :=
  match lookup t uid with
  | none => (.noBoxes, t)
  | some s =>
    if s.mysteryboxes ≤ 0 then (.noBoxes, t)
    else
      let reward := chosenReward g
      match reward.kind with
      | .crystals | .productionBoost =>
          (.boxOk reward,
           updateRow t uid (fun r =>
             { r with crystals := r.crystals + reward.amount,
                      mysteryboxes := r.mysteryboxes - 1 }))
      | .clickPower =>
          (.boxOk reward,
           updateRow t uid (fun r =>
             { r with clickpower := r.clickpower + reward.amount,
                      mysteryboxes := r.mysteryboxes - 1 }))

/-- Python int() truncates toward zero. -/
def intTrunc (q : ℚ) : ℤ := if 0 ≤ q then ⌊q⌋ else ⌈q⌉

/-- The cooldown check of claim_luck_bonus: some remaining when the last
claim is less than 3600 seconds old (the Python if last_bonus guard skips
the check when the timestamp is NULL). -/
def onCooldownCheck (lastluckbonus : Option ℤ) (now : ℤ) : Option ℤ :=
  match lastluckbonus with
  | none => none
  | some last => if now - last < 3600 then some (3600 - (now - last)) else none

/-- The SET clause of the claim_luck_bonus UPDATE (the source issues one
of two UPDATE statements depending on got_mystery_box). -/
def luckApply (now totalBonus : ℤ) (gotBox : Bool) (r : PlayerState) : PlayerState :=
  if gotBox then
    { r with crystals := r.crystals + totalBonus,
             mysteryboxes := r.mysteryboxes + 1,
             lastluckbonus := some now }
  else
    { r with crystals := r.crystals + totalBonus,
             lastluckbonus := some now }

/-- The /claim_luck_bonus endpoint.  now is the wall clock in seconds,
base the randint(100,1000) draw, roll the randint(1,100) draw for the
mystery-box chance.  total_bonus = int(base * (1 + luck_level * 0.5)). -/
def claim_luck_bonus (t : Table) (uid now base roll : ℤ) : Response × Table :=
  match lookup t uid with
  | none => (.notFound, t)
  | some s =>
    match onCooldownCheck s.lastluckbonus now with
    | some remaining => (.onCooldown remaining, t)
    | none =>
      if s.lucklevel ≤ 0 then (.noLuckLevel, t)
      else
        let totalBonus := intTrunc ((base : ℚ) * (1 + (s.lucklevel : ℚ) * (1 / 2)))
        let gotBox : Bool := decide (roll ≤ min (s.lucklevel * 5) 50)
        (.luckOk totalBonus gotBox, updateRow t uid (luckApply now totalBonus gotBox))

/-! ### Progression ledger (app.py, /save_game) -/

/-- The game_data JSON object of a save request: every field the UPDATE
of save_game reads via gd.get(key, default); none models an omitted key. -/
structure Snapshot where
  crystals : Option ℤ := none
  lifetime_crystals : Option ℤ := none
  autoclickers : Option ℤ := none
  factories : Option ℤ := none
  mines : Option ℤ := none
  refineries : Option ℤ := none
  quantumDrills : Option ℤ := none
  magicWells : Option ℤ := none
  starForges : Option ℤ := none
  timeAccelerators : Option ℤ := none
  voidHarvesters : Option ℤ := none
  clickPower : Option ℤ := none
  totalClicks : Option ℤ := none
  priceAutoclicker : Option ℤ := none
  priceFactory : Option ℤ := none
  priceMine : Option ℤ := none
  priceRefinery : Option ℤ := none
  priceQuantumDrill : Option ℤ := none
  priceMagicWell : Option ℤ := none
  priceStarForge : Option ℤ := none
  priceTimeAccelerator : Option ℤ := none
  priceVoidHarvester : Option ℤ := none
  priceClickPower : Option ℤ := none
  rebirthCount : Option ℤ := none
  rebirthPoints : Option ℤ := none
  bonusClickPower : Option ℤ := none
  bonusProduction : Option ℤ := none
  bonusRebirthPoints : Option ℤ := none
  luckLevel : Option ℤ := none
  mysteryBoxes : Option ℤ := none
  deriving DecidableEq

/-- The SET clause of the save_game UPDATE: each column is overwritten
with gd.get(key, default); only username and lastluckbonus (not in the
UPDATE) survive from the old row. -/
def applySnapshot (gd : Snapshot) (s : PlayerState) : PlayerState :=
  { s with
    crystals := gd.crystals.getD 0
    lifetime_crystals := gd.lifetime_crystals.getD 0
    autoclickers := gd.autoclickers.getD 0
    factories := gd.factories.getD 0
    mines := gd.mines.getD 0
    refineries := gd.refineries.getD 0
    quantumdrills := gd.quantumDrills.getD 0
    magicwells := gd.magicWells.getD 0
    starforges := gd.starForges.getD 0
    timeaccelerators := gd.timeAccelerators.getD 0
    voidharvesters := gd.voidHarvesters.getD 0
    clickpower := gd.clickPower.getD 1
    totalclicks := gd.totalClicks.getD 0
    priceautoclicker := gd.priceAutoclicker.getD 5
    pricefactory := gd.priceFactory.getD 50
    pricemine := gd.priceMine.getD 500
    pricerefinery := gd.priceRefinery.getD 5000
    pricequantumdrill := gd.priceQuantumDrill.getD 50000
    pricemagicwell := gd.priceMagicWell.getD 500000
    pricestarforge := gd.priceStarForge.getD 5000000
    pricetimeaccelerator := gd.priceTimeAccelerator.getD 50000000
    pricevoidharvester := gd.priceVoidHarvester.getD 1000000000
    priceclickpower := gd.priceClickPower.getD 20
    rebirthcount := gd.rebirthCount.getD 0
    rebirthpoints := gd.rebirthPoints.getD 0
    bonusclickpower := gd.bonusClickPower.getD 0
    bonusproduction := gd.bonusProduction.getD 0
    bonusrebirthpoints := gd.bonusRebirthPoints.getD 0
    lucklevel := gd.luckLevel.getD 0
    mysteryboxes := gd.mysteryBoxes.getD 0 }

/-- The /save_game endpoint: UPDATE ... WHERE id = uid, then commit and
answer success.  The source never inspects the affected row count, so the
response is success whether or not a row with this id exists. -/
def save_game (t : Table) (uid : ℤ) (gd : Snapshot) : Response × Table :=
  (.saveOk, updateRow t uid (applySnapshot gd))

/-! ### Leaderboard engine (app.py, /leaderboard?type=cps) -/

/-- The cps score of one row: the weighted sum of the nine producer
counts used in the cps leaderboard query. -/
def cpsScore (s : PlayerState) : ℤ :=
  s.autoclickers * 1 + s.factories * 5 + s.mines * 50 + s.refineries * 200 +
    s.quantumdrills * 1000 + s.magicwells * 5000 + s.starforges * 25000 +
    s.timeaccelerators * 100000 + s.voidharvesters * 500000

/-- A leaderboard entry: username and score. -/
abbrev LbEntry := String × ℤ

/-- Insertion into a list sorted by descending score (a deterministic
realisation of the ORDER BY value DESC of the query). -/
def insertDesc (e : LbEntry) : List LbEntry → List LbEntry
  | [] => [e]
  | x :: xs => if x.2 ≤ e.2 then e :: x :: xs else x :: insertDesc e xs

/-- Sort by descending score. -/
def sortDesc : List LbEntry → List LbEntry
  | [] => []
  | x :: xs => insertDesc x (sortDesc xs)

/-- The cps leaderboard query: score each row, keep scores > 0, order by
score descending, LIMIT 10. -/
def leaderboard_cps (t : Table) : List LbEntry :=
  (sortDesc (((t.map fun r => (r.2.username, cpsScore r.2)).filter
    fun e => decide (0 < e.2)))).take 10

/-! ### Helper lemmas -/

lemma lookup_updateRow (t : Table) (uid : ℤ) (f : PlayerState → PlayerState) :
    lookup (updateRow t uid f) uid = (lookup t uid).map f := by
  induction t with
  | nil => rfl
  | cons r rs ih =>
    by_cases h : r.1 = uid
    · simp [lookup, updateRow, h]
    · simp [lookup, updateRow, h, ih]

lemma updateRow_of_lookup_none (t : Table) (uid : ℤ) (f : PlayerState → PlayerState)
    (h : lookup t uid = none) : updateRow t uid f = t := by
  induction t with
  | nil => rfl
  | cons r rs ih =>
    by_cases hr : r.1 = uid
    · simp [lookup, hr] at h
    · simp only [lookup, hr, if_neg, ite_false] at h
      simp [updateRow, hr, ih h]

lemma one_le_rebirthPointsOf (crystals bonus : ℤ) :
    1 ≤ rebirthPointsOf crystals bonus := by
  unfold rebirthPointsOf
  split
  · exact le_max_left _ _
  · exact le_refl _

lemma luckGainedOf_eq_zero_or_one (roll : ℤ) :
    luckGainedOf roll = 0 ∨ luckGainedOf roll = 1 := by
  unfold luckGainedOf
  split
  · exact Or.inr rfl
  · exact Or.inl rfl

lemma luckGainedOf_nonneg (roll : ℤ) : 0 ≤ luckGainedOf roll := by
  rcases luckGainedOf_eq_zero_or_one roll with h | h <;> simp [h]

lemma intTrunc_eq_floor {q : ℚ} (h : 0 ≤ q) : intTrunc q = ⌊q⌋ := by
  unfold intTrunc
  exact if_pos h

lemma mem_insertDesc {a e : LbEntry} :
    ∀ {l : List LbEntry}, a ∈ insertDesc e l ↔ a = e ∨ a ∈ l
  | [] => by simp [insertDesc]
  | x :: xs => by
    by_cases hx : x.2 ≤ e.2
    · simp only [insertDesc, if_pos hx, List.mem_cons]
    · simp only [insertDesc, if_neg hx, List.mem_cons,
        @mem_insertDesc (l := xs)]
      tauto

lemma pairwise_insertDesc (e : LbEntry) :
    ∀ l : List LbEntry, l.Pairwise (fun a b => b.2 ≤ a.2) →
      (insertDesc e l).Pairwise (fun a b => b.2 ≤ a.2)
  | [], _ => by simp [insertDesc]
  | x :: xs, h => by
    rw [List.pairwise_cons] at h
    by_cases hx : x.2 ≤ e.2
    · simp only [insertDesc, if_pos hx]
      refine List.Pairwise.cons ?_ (List.Pairwise.cons h.1 h.2)
      intro b hb
      rcases List.mem_cons.mp hb with rfl | hb
      · exact hx
      · exact le_trans (h.1 b hb) hx
    · simp only [insertDesc, if_neg hx]
      refine List.Pairwise.cons ?_ (pairwise_insertDesc e xs h.2)
      intro b hb
      rcases mem_insertDesc.mp hb with rfl | hb
      · exact le_of_not_le hx
      · exact h.1 b hb

lemma pairwise_sortDesc : ∀ l : List LbEntry,
    (sortDesc l).Pairwise (fun a b => b.2 ≤ a.2)
  | [] => by simp [sortDesc]
  | x :: xs => pairwise_insertDesc x (sortDesc xs) (pairwise_sortDesc xs)

lemma mem_sortDesc {a : LbEntry} :
    ∀ {l : List LbEntry}, a ∈ sortDesc l ↔ a ∈ l
  | [] => Iff.rfl
  | x :: xs => by
    simp only [sortDesc, mem_insertDesc, @mem_sortDesc (l := xs), List.mem_cons]

/-! ### Test fixtures -/

/-- A freshly registered player (all column defaults). -/
def basePlayer : PlayerState := {}

/-- A player eligible for a first rebirth. -/
def eligiblePlayer : PlayerState :=
  { username := "alice", crystals := 100000, lucklevel := 2,
    mysteryboxes := 3, lastluckbonus := some 1000 }

/-- A player short of the fourth rebirth threshold. -/
def poorPlayer : PlayerState :=
  { username := "bob", crystals := 799999, rebirthcount := 3 }

/-- A player whose numeric fields differ from the save defaults. -/
def richPlayer : PlayerState :=
  { username := "carol", crystals := 123456, clickpower := 7,
    mysteryboxes := 4, rebirthpoints := 9, lastluckbonus := some 42 }

def lbClicker : PlayerState := { username := "clicker", autoclickers := 10 }

def lbMiner : PlayerState := { username := "miner", mines := 1 }

def rngExample : BoxRng := ⟨1000, 10000, 3, 50000, 0⟩

def snapEmpty : Snapshot := {}

/-! ### Claims -/

/-- C1: For a player with rebirthCount = n, the rebirth endpoint computes
required = 100000 * 2 ^ n (100000 for n = 0, 800000 for n = 3); whenever
the player's crystals are strictly below this threshold it answers
insufficientCurrency with that required amount and leaves the table
completely unchanged. -/
theorem C1_rebirth_threshold (t : Table) (uid roll : ℤ) (s : PlayerState) (n : ℕ)
    (h : lookup t uid = some s) (hn : s.rebirthcount = (n : ℤ))
    (hlt : s.crystals < 100000 * 2 ^ n) :
    requiredCrystals n = 100000 * 2 ^ n ∧
    requiredCrystals 0 = 100000 ∧ requiredCrystals 3 = 800000 ∧
    rebirth t uid roll = (.insufficientCurrency (100000 * 2 ^ n), t) := by
  have htn : s.rebirthcount.toNat = n := by rw [hn]; exact Int.toNat_natCast n
  have hreq : requiredCrystals s.rebirthcount.toNat = 100000 * 2 ^ n := by
    rw [htn]; rfl
  refine ⟨rfl, by norm_num [requiredCrystals], by norm_num [requiredCrystals], ?_⟩
  simp only [rebirth, h, hreq, if_pos hlt]

/-- C1 witness: a concrete player with rebirthCount = 3 and 799999 crystals
is refused with required = 800000 and the table is unchanged. -/
theorem C1_rebirth_threshold_witness :
    lookup [((7 : ℤ), poorPlayer)] 7 = some poorPlayer ∧
    poorPlayer.rebirthcount = ((3 : ℕ) : ℤ) ∧
    poorPlayer.crystals < 100000 * 2 ^ 3 ∧
    (requiredCrystals 3 = 100000 * 2 ^ 3 ∧
     requiredCrystals 0 = 100000 ∧ requiredCrystals 3 = 800000 ∧
     rebirth [((7 : ℤ), poorPlayer)] 7 50 =
       (.insufficientCurrency (100000 * 2 ^ 3), [((7 : ℤ), poorPlayer)])) :=
  ⟨by decide, by decide, by decide,
   C1_rebirth_threshold [((7 : ℤ), poorPlayer)] 7 50 poorPlayer 3
     (by decide) (by decide) (by decide)⟩

/-- C2: a successful rebirth with positive crystals gains
max 1 (floor((log10 c + c / 1000000) * (1 + bonus / 100))) points, hence
always at least 1 point, however large the crystal balance. -/
theorem C2_rebirth_points (t : Table) (uid roll : ℤ) (s : PlayerState)
    (h : lookup t uid = some s)
    (hge : requiredCrystals s.rebirthcount.toNat ≤ s.crystals)
    (hpos : 0 < s.crystals) :
    ∃ r : RebirthResult, (rebirth t uid roll).1 = .rebirthOk r ∧
      r.gainedPoints =
        max 1 ⌊(Real.logb 10 (s.crystals : ℝ) + (s.crystals : ℝ) / 1000000) *
          (1 + (s.bonusrebirthpoints : ℝ) / 100)⌋ ∧
      1 ≤ r.gainedPoints := by
  refine ⟨⟨s.rebirthcount + 1,
      s.rebirthpoints + rebirthPointsOf s.crystals s.bonusrebirthpoints,
      s.lucklevel + luckGainedOf roll,
      rebirthPointsOf s.crystals s.bonusrebirthpoints, luckGainedOf roll⟩,
    ?_, ?_, one_le_rebirthPointsOf _ _⟩
  · simp [rebirth, h, not_lt.mpr hge]
  · show rebirthPointsOf s.crystals s.bonusrebirthpoints = _
    unfold rebirthPointsOf
    rw [if_pos hpos]

/-- C2 witness at 100000 crystals and no rebirth-point bonus. -/
theorem C2_rebirth_points_witness :
    lookup [((1 : ℤ), eligiblePlayer)] 1 = some eligiblePlayer ∧
    requiredCrystals eligiblePlayer.rebirthcount.toNat ≤ eligiblePlayer.crystals ∧
    0 < eligiblePlayer.crystals ∧
    (∃ r : RebirthResult,
      (rebirth [((1 : ℤ), eligiblePlayer)] 1 50).1 = .rebirthOk r ∧
      r.gainedPoints =
        max 1 ⌊(Real.logb 10 (eligiblePlayer.crystals : ℝ) +
            (eligiblePlayer.crystals : ℝ) / 1000000) *
          (1 + (eligiblePlayer.bonusrebirthpoints : ℝ) / 100)⌋ ∧
      1 ≤ r.gainedPoints) :=
  ⟨by decide, by decide, by decide,
   C2_rebirth_points [((1 : ℤ), eligiblePlayer)] 1 50 eligiblePlayer
     (by decide) (by decide) (by decide)⟩

/-- C3: a successful rebirth answers with the updated counters, and the
updated row has crystals = 0, all nine producer counts = 0, every price
back at its base value, clickpower = 1, rebirthcount incremented by 1,
rebirthpoints incremented by the gained points, lucklevel incremented by
the luck draw (0 or 1), while mysteryboxes, totalclicks,
lifetime_crystals, the three bonus levels and lastluckbonus are
unchanged; rebirthcount, rebirthpoints and lucklevel never decrease. -/
theorem C3_rebirth_reset (t : Table) (uid roll : ℤ) (s : PlayerState)
    (h : lookup t uid = some s)
    (hge : requiredCrystals s.rebirthcount.toNat ≤ s.crystals) :
    (rebirth t uid roll).1 = .rebirthOk
        ⟨s.rebirthcount + 1,
         s.rebirthpoints + rebirthPointsOf s.crystals s.bonusrebirthpoints,
         s.lucklevel + luckGainedOf roll,
         rebirthPointsOf s.crystals s.bonusrebirthpoints, luckGainedOf roll⟩ ∧
    lookup (rebirth t uid roll).2 uid = some (rebirthReset s roll) ∧
    (rebirthReset s roll).crystals = 0 ∧
    (rebirthReset s roll).autoclickers = 0 ∧
    (rebirthReset s roll).factories = 0 ∧
    (rebirthReset s roll).mines = 0 ∧
    (rebirthReset s roll).refineries = 0 ∧
    (rebirthReset s roll).quantumdrills = 0 ∧
    (rebirthReset s roll).magicwells = 0 ∧
    (rebirthReset s roll).starforges = 0 ∧
    (rebirthReset s roll).timeaccelerators = 0 ∧
    (rebirthReset s roll).voidharvesters = 0 ∧
    (rebirthReset s roll).clickpower = 1 ∧
    (rebirthReset s roll).priceautoclicker = 5 ∧
    (rebirthReset s roll).pricefactory = 50 ∧
    (rebirthReset s roll).pricemine = 500 ∧
    (rebirthReset s roll).pricerefinery = 5000 ∧
    (rebirthReset s roll).pricequantumdrill = 50000 ∧
    (rebirthReset s roll).pricemagicwell = 500000 ∧
    (rebirthReset s roll).pricestarforge = 5000000 ∧
    (rebirthReset s roll).pricetimeaccelerator = 50000000 ∧
    (rebirthReset s roll).pricevoidharvester = 1000000000 ∧
    (rebirthReset s roll).priceclickpower = 20 ∧
    (rebirthReset s roll).rebirthcount = s.rebirthcount + 1 ∧
    (rebirthReset s roll).rebirthpoints =
      s.rebirthpoints + rebirthPointsOf s.crystals s.bonusrebirthpoints ∧
    (luckGainedOf roll = 0 ∨ luckGainedOf roll = 1) ∧
    (rebirthReset s roll).lucklevel = s.lucklevel + luckGainedOf roll ∧
    (rebirthReset s roll).mysteryboxes = s.mysteryboxes ∧
    (rebirthReset s roll).totalclicks = s.totalclicks ∧
    (rebirthReset s roll).lifetime_crystals = s.lifetime_crystals ∧
    (rebirthReset s roll).bonusclickpower = s.bonusclickpower ∧
    (rebirthReset s roll).bonusproduction = s.bonusproduction ∧
    (rebirthReset s roll).bonusrebirthpoints = s.bonusrebirthpoints ∧
    (rebirthReset s roll).lastluckbonus = s.lastluckbonus ∧
    s.rebirthcount < (rebirthReset s roll).rebirthcount ∧
    s.rebirthpoints < (rebirthReset s roll).rebirthpoints ∧
    s.lucklevel ≤ (rebirthReset s roll).lucklevel := by
  have h2 : (rebirth t uid roll).2 = updateRow t uid fun r => rebirthReset r roll := by
    simp [rebirth, h, not_lt.mpr hge]
  refine ⟨by simp [rebirth, h, not_lt.mpr hge],
    by rw [h2, lookup_updateRow, h]; rfl,
    by simp [rebirthReset], by simp [rebirthReset], by simp [rebirthReset],
    by simp [rebirthReset], by simp [rebirthReset], by simp [rebirthReset],
    by simp [rebirthReset], by simp [rebirthReset], by simp [rebirthReset],
    by simp [rebirthReset], by simp [rebirthReset], by simp [rebirthReset],
    by simp [rebirthReset], by simp [rebirthReset], by simp [rebirthReset],
    by simp [rebirthReset], by simp [rebirthReset], by simp [rebirthReset],
    by simp [rebirthReset], by simp [rebirthReset], by simp [rebirthReset],
    by simp [rebirthReset], by simp [rebirthReset],
    luckGainedOf_eq_zero_or_one roll,
    by simp [rebirthReset], by simp [rebirthReset], by simp [rebirthReset],
    by simp [rebirthReset], by simp [rebirthReset], by simp [rebirthReset],
    by simp [rebirthReset], by simp [rebirthReset],
    by simp [rebirthReset],
    ?_, ?_⟩
  · have hp := one_le_rebirthPointsOf s.crystals s.bonusrebirthpoints
    simp only [rebirthReset]
    linarith
  · have hlg := luckGainedOf_nonneg roll
    simp only [rebirthReset]
    linarith

/-- C3 witness at a concrete eligible player. -/
theorem C3_rebirth_reset_witness :
    lookup [((1 : ℤ), eligiblePlayer)] 1 = some eligiblePlayer ∧
    requiredCrystals eligiblePlayer.rebirthcount.toNat ≤ eligiblePlayer.crystals ∧
    ((rebirth [((1 : ℤ), eligiblePlayer)] 1 50).1 = .rebirthOk
        ⟨eligiblePlayer.rebirthcount + 1,
         eligiblePlayer.rebirthpoints +
           rebirthPointsOf eligiblePlayer.crystals eligiblePlayer.bonusrebirthpoints,
         eligiblePlayer.lucklevel + luckGainedOf 50,
         rebirthPointsOf eligiblePlayer.crystals eligiblePlayer.bonusrebirthpoints,
         luckGainedOf 50⟩ ∧
     lookup (rebirth [((1 : ℤ), eligiblePlayer)] 1 50).2 1 =
       some (rebirthReset eligiblePlayer 50) ∧
     (rebirthReset eligiblePlayer 50).crystals = 0 ∧
     (rebirthReset eligiblePlayer 50).autoclickers = 0 ∧
     (rebirthReset eligiblePlayer 50).factories = 0 ∧
     (rebirthReset eligiblePlayer 50).mines = 0 ∧
     (rebirthReset eligiblePlayer 50).refineries = 0 ∧
     (rebirthReset eligiblePlayer 50).quantumdrills = 0 ∧
     (rebirthReset eligiblePlayer 50).magicwells = 0 ∧
     (rebirthReset eligiblePlayer 50).starforges = 0 ∧
     (rebirthReset eligiblePlayer 50).timeaccelerators = 0 ∧
     (rebirthReset eligiblePlayer 50).voidharvesters = 0 ∧
     (rebirthReset eligiblePlayer 50).clickpower = 1 ∧
     (rebirthReset eligiblePlayer 50).priceautoclicker = 5 ∧
     (rebirthReset eligiblePlayer 50).pricefactory = 50 ∧
     (rebirthReset eligiblePlayer 50).pricemine = 500 ∧
     (rebirthReset eligiblePlayer 50).pricerefinery = 5000 ∧
     (rebirthReset eligiblePlayer 50).pricequantumdrill = 50000 ∧
     (rebirthReset eligiblePlayer 50).pricemagicwell = 500000 ∧
     (rebirthReset eligiblePlayer 50).pricestarforge = 5000000 ∧
     (rebirthReset eligiblePlayer 50).pricetimeaccelerator = 50000000 ∧
     (rebirthReset eligiblePlayer 50).pricevoidharvester = 1000000000 ∧
     (rebirthReset eligiblePlayer 50).priceclickpower = 20 ∧
     (rebirthReset eligiblePlayer 50).rebirthcount = eligiblePlayer.rebirthcount + 1 ∧
     (rebirthReset eligiblePlayer 50).rebirthpoints =
       eligiblePlayer.rebirthpoints +
         rebirthPointsOf eligiblePlayer.crystals eligiblePlayer.bonusrebirthpoints ∧
     (luckGainedOf 50 = 0 ∨ luckGainedOf 50 = 1) ∧
     (rebirthReset eligiblePlayer 50).lucklevel =
       eligiblePlayer.lucklevel + luckGainedOf 50 ∧
     (rebirthReset eligiblePlayer 50).mysteryboxes = eligiblePlayer.mysteryboxes ∧
     (rebirthReset eligiblePlayer 50).totalclicks = eligiblePlayer.totalclicks ∧
     (rebirthReset eligiblePlayer 50).lifetime_crystals =
       eligiblePlayer.lifetime_crystals ∧
     (rebirthReset eligiblePlayer 50).bonusclickpower =
       eligiblePlayer.bonusclickpower ∧
     (rebirthReset eligiblePlayer 50).bonusproduction =
       eligiblePlayer.bonusproduction ∧
     (rebirthReset eligiblePlayer 50).bonusrebirthpoints =
       eligiblePlayer.bonusrebirthpoints ∧
     (rebirthReset eligiblePlayer 50).lastluckbonus = eligiblePlayer.lastluckbonus ∧
     eligiblePlayer.rebirthcount < (rebirthReset eligiblePlayer 50).rebirthcount ∧
     eligiblePlayer.rebirthpoints < (rebirthReset eligiblePlayer 50).rebirthpoints ∧
     eligiblePlayer.lucklevel ≤ (rebirthReset eligiblePlayer 50).lucklevel) :=
  ⟨by decide, by decide,
   C3_rebirth_reset [((1 : ℤ), eligiblePlayer)] 1 50 eligiblePlayer
     (by decide) (by decide)⟩

/-- C4 counterexample: the claim says an absent player id makes
open_mystery_box fail notFound, but the source merges the absent-player
check into the no-boxes check, so on an empty table the endpoint answers
the no-boxes response, which is not the notFound response. -/
theorem C4_box_counterexample :
    open_mystery_box ([] : Table) 1 rngExample = (.noBoxes, []) ∧
    Response.noBoxes ≠ Response.notFound := by
  exact ⟨rfl, by decide⟩

/-- C4 amended: open_mystery_box fails with the no-boxes error both when
the player id is absent and when mysteryboxes ≤ 0 (an absent player is not
reported as notFound); in the mysteryboxes = 0 case it always fails with
the no-boxes error and mutates nothing. -/
theorem C4_box_no_boxes (t : Table) (uid : ℤ) (g : BoxRng) :
    (lookup t uid = none → open_mystery_box t uid g = (.noBoxes, t)) ∧
    (∀ s : PlayerState, lookup t uid = some s → s.mysteryboxes ≤ 0 →
      open_mystery_box t uid g = (.noBoxes, t)) := by
  constructor
  · intro h
    simp [open_mystery_box, h]
  · intro s h hz
    simp [open_mystery_box, h, hz]

/-- C4 witness: a player with zero boxes is refused and the table is
unchanged; likewise on the empty table. -/
theorem C4_box_no_boxes_witness :
    (lookup ([] : Table) 1 = none →
      open_mystery_box ([] : Table) 1 rngExample = (.noBoxes, [])) ∧
    (lookup [((1 : ℤ), basePlayer)] 1 = some basePlayer ∧
     basePlayer.mysteryboxes ≤ 0 ∧
     open_mystery_box [((1 : ℤ), basePlayer)] 1 rngExample =
       (.noBoxes, [((1 : ℤ), basePlayer)])) :=
  ⟨(C4_box_no_boxes ([] : Table) 1 rngExample).1,
   by decide, by decide,
   (C4_box_no_boxes [((1 : ℤ), basePlayer)] 1 rngExample).2 basePlayer
     (by decide) (by decide)⟩

lemma claim_luck_bonus_onCooldown (t : Table) (uid now base roll last : ℤ)
    (s : PlayerState) (h : lookup t uid = some s) (hl : s.lastluckbonus = some last)
    (hcd : now - last < 3600) :
    claim_luck_bonus t uid now base roll = (.onCooldown (3600 - (now - last)), t) := by
  simp [claim_luck_bonus, h, onCooldownCheck, hl, hcd]

/-- C5: while now - lastluckbonus < 3600 the claim endpoint answers
onCooldown with the remaining seconds and mutates nothing; once
3600 seconds have passed and lucklevel > 0 it succeeds, and a second call
within 3600 seconds of that success fails onCooldown again. -/
theorem C5_luck_cooldown (t : Table) (uid now base roll last : ℤ) (s : PlayerState)
    (h : lookup t uid = some s) (hl : s.lastluckbonus = some last) :
    (now - last < 3600 →
      claim_luck_bonus t uid now base roll = (.onCooldown (3600 - (now - last)), t)) ∧
    (3600 ≤ now - last → 0 < s.lucklevel →
      (∃ b g, (claim_luck_bonus t uid now base roll).1 = .luckOk b g) ∧
      (∀ now2 base2 roll2 : ℤ, now2 - now < 3600 →
        (claim_luck_bonus (claim_luck_bonus t uid now base roll).2
            uid now2 base2 roll2).1 = .onCooldown (3600 - (now2 - now)))) := by
  constructor
  · intro hcd
    exact claim_luck_bonus_onCooldown t uid now base roll last s h hl hcd
  · intro hcd hL
    have hnc : ¬ now - last < 3600 := not_lt.mpr hcd
    have hLne : ¬ s.lucklevel ≤ 0 := not_le.mpr hL
    have hrun : claim_luck_bonus t uid now base roll =
        (.luckOk (intTrunc ((base : ℚ) * (1 + (s.lucklevel : ℚ) * (1 / 2))))
           (decide (roll ≤ min (s.lucklevel * 5) 50)),
         updateRow t uid
           (luckApply now (intTrunc ((base : ℚ) * (1 + (s.lucklevel : ℚ) * (1 / 2))))
             (decide (roll ≤ min (s.lucklevel * 5) 50)))) := by
      simp [claim_luck_bonus, h, onCooldownCheck, hl, hnc, hLne]
    refine ⟨⟨_, _, by rw [hrun]⟩, ?_⟩
    intro now2 base2 roll2 hcd2
    have hl2 : lookup (claim_luck_bonus t uid now base roll).2 uid =
        some (luckApply now (intTrunc ((base : ℚ) * (1 + (s.lucklevel : ℚ) * (1 / 2))))
          (decide (roll ≤ min (s.lucklevel * 5) 50)) s) := by
      rw [hrun]
      simp [lookup_updateRow, h]
    have hlast : (luckApply now
        (intTrunc ((base : ℚ) * (1 + (s.lucklevel : ℚ) * (1 / 2))))
        (decide (roll ≤ min (s.lucklevel * 5) 50)) s).lastluckbonus = some now := by
      unfold luckApply
      split <;> rfl
    rw [claim_luck_bonus_onCooldown (claim_luck_bonus t uid now base roll).2
      uid now2 base2 roll2 now _ hl2 hlast (by linarith)]

/-- C5 witness: cooldown at 1800 seconds since the last claim, success at
4000 seconds, and a failing second call 100 seconds after the success. -/
theorem C5_luck_cooldown_witness :
    lookup [((1 : ℤ), eligiblePlayer)] 1 = some eligiblePlayer ∧
    eligiblePlayer.lastluckbonus = some 1000 ∧
    ((2800 : ℤ) - 1000 < 3600 →
      claim_luck_bonus [((1 : ℤ), eligiblePlayer)] 1 2800 500 90 =
        (.onCooldown (3600 - ((2800 : ℤ) - 1000)), [((1 : ℤ), eligiblePlayer)])) ∧
    ((3600 : ℤ) ≤ 5000 - 1000 → 0 < eligiblePlayer.lucklevel →
      (∃ b g, (claim_luck_bonus [((1 : ℤ), eligiblePlayer)] 1 5000 500 90).1 =
        .luckOk b g) ∧
      (∀ now2 base2 roll2 : ℤ, now2 - 5000 < 3600 →
        (claim_luck_bonus (claim_luck_bonus [((1 : ℤ), eligiblePlayer)] 1 5000 500 90).2
            1 now2 base2 roll2).1 = .onCooldown (3600 - (now2 - 5000)))) :=
  ⟨by decide, by decide,
   (C5_luck_cooldown [((1 : ℤ), eligiblePlayer)] 1 2800 500 90 1000 eligiblePlayer
     (by decide) (by decide)).1,
   (C5_luck_cooldown [((1 : ℤ), eligiblePlayer)] 1 5000 500 90 1000 eligiblePlayer
     (by decide) (by decide)).2⟩

/-- C6: a successful claim with luck level L > 0 and base draw b in
[100, 1000] answers luckOk with totalBonus = floor(b * (1 + L * 0.5)) and
a box flag that is set exactly when the [1, 100] roll is at most
min(L * 5, 50); the updated row gains totalBonus crystals, has
lastluckbonus = now, and has one more mystery box exactly when the box
flag is set. -/
theorem C6_luck_bonus (t : Table) (uid now base roll last : ℤ) (s : PlayerState)
    (h : lookup t uid = some s) (hl : s.lastluckbonus = some last)
    (hcd : 3600 ≤ now - last) (hL : 0 < s.lucklevel)
    (hb1 : 100 ≤ base) (_hb2 : base ≤ 1000) (_hr1 : 1 ≤ roll)
    (_hr2 : roll ≤ 100) :
    (claim_luck_bonus t uid now base roll).1 =
      .luckOk ⌊(base : ℚ) * (1 + (s.lucklevel : ℚ) * (1 / 2))⌋
        (decide (roll ≤ min (s.lucklevel * 5) 50)) ∧
    ∃ s2 : PlayerState,
      lookup (claim_luck_bonus t uid now base roll).2 uid = some s2 ∧
      s2.crystals = s.crystals + ⌊(base : ℚ) * (1 + (s.lucklevel : ℚ) * (1 / 2))⌋ ∧
      s2.lastluckbonus = some now ∧
      s2.mysteryboxes =
        (if roll ≤ min (s.lucklevel * 5) 50 then s.mysteryboxes + 1
         else s.mysteryboxes) := by
  have hnc : ¬ now - last < 3600 := not_lt.mpr hcd
  have hLne : ¬ s.lucklevel ≤ 0 := not_le.mpr hL
  have hbq : (0 : ℚ) ≤ (base : ℚ) := by
    have : (0 : ℤ) ≤ base := by linarith
    exact_mod_cast this
  have hLq : (0 : ℚ) ≤ (s.lucklevel : ℚ) := by
    have : (0 : ℤ) ≤ s.lucklevel := le_of_lt hL
    exact_mod_cast this
  have hq : (0 : ℚ) ≤ (base : ℚ) * (1 + (s.lucklevel : ℚ) * (1 / 2)) := by
    apply mul_nonneg hbq
    nlinarith
  have htr : intTrunc ((base : ℚ) * (1 + (s.lucklevel : ℚ) * (1 / 2))) =
      ⌊(base : ℚ) * (1 + (s.lucklevel : ℚ) * (1 / 2))⌋ := intTrunc_eq_floor hq
  have hrun : claim_luck_bonus t uid now base roll =
      (.luckOk (intTrunc ((base : ℚ) * (1 + (s.lucklevel : ℚ) * (1 / 2))))
         (decide (roll ≤ min (s.lucklevel * 5) 50)),
       updateRow t uid
         (luckApply now (intTrunc ((base : ℚ) * (1 + (s.lucklevel : ℚ) * (1 / 2))))
           (decide (roll ≤ min (s.lucklevel * 5) 50)))) := by
    simp [claim_luck_bonus, h, onCooldownCheck, hl, hnc, hLne]
  constructor
  · rw [hrun, htr]
  · refine ⟨luckApply now
        (intTrunc ((base : ℚ) * (1 + (s.lucklevel : ℚ) * (1 / 2))))
        (decide (roll ≤ min (s.lucklevel * 5) 50)) s, ?_, ?_, ?_, ?_⟩
    · rw [hrun]
      simp [lookup_updateRow, h]
    · rw [htr]
      unfold luckApply
      split <;> rfl
    · unfold luckApply
      split <;> rfl
    · unfold luckApply
      by_cases hgot : roll ≤ min (s.lucklevel * 5) 50
      · simp [hgot]
      · simp [hgot]

/-- C6 witness: luck level 2, base 500 (totalBonus 1000), roll 90 (above
the 10 percent chance, so no box). -/
theorem C6_luck_bonus_witness :
    lookup [((1 : ℤ), eligiblePlayer)] 1 = some eligiblePlayer ∧
    eligiblePlayer.lastluckbonus = some 1000 ∧
    (3600 : ℤ) ≤ 5000 - 1000 ∧ 0 < eligiblePlayer.lucklevel ∧
    (100 : ℤ) ≤ 500 ∧ (500 : ℤ) ≤ 1000 ∧ (1 : ℤ) ≤ 90 ∧ (90 : ℤ) ≤ 100 ∧
    ((claim_luck_bonus [((1 : ℤ), eligiblePlayer)] 1 5000 500 90).1 =
      .luckOk ⌊((500 : ℤ) : ℚ) * (1 + (eligiblePlayer.lucklevel : ℚ) * (1 / 2))⌋
        (decide ((90 : ℤ) ≤ min (eligiblePlayer.lucklevel * 5) 50)) ∧
     ∃ s2 : PlayerState,
       lookup (claim_luck_bonus [((1 : ℤ), eligiblePlayer)] 1 5000 500 90).2 1 =
         some s2 ∧
       s2.crystals = eligiblePlayer.crystals +
         ⌊((500 : ℤ) : ℚ) * (1 + (eligiblePlayer.lucklevel : ℚ) * (1 / 2))⌋ ∧
       s2.lastluckbonus = some 5000 ∧
       s2.mysteryboxes =
         (if (90 : ℤ) ≤ min (eligiblePlayer.lucklevel * 5) 50 then
            eligiblePlayer.mysteryboxes + 1
          else eligiblePlayer.mysteryboxes)) :=
  ⟨by decide, by decide, by decide, by decide, by decide, by decide, by decide,
   by decide,
   C6_luck_bonus [((1 : ℤ), eligiblePlayer)] 1 5000 500 90 1000 eligiblePlayer
     (by decide) (by decide) (by decide) (by decide) (by decide) (by decide)
     (by decide) (by decide)⟩

/-- C7: every cps leaderboard entry carries a positive score equal to the
weighted sum 1, 5, 50, 200, 1000, 5000, 25000, 100000, 500000 over the
nine producer counts of some row of the table, the list is ordered by
score descending, and concretely a player with ten autoclickers
(score 10) ranks below a player with one mine (score 50). -/
theorem C7_leaderboard_cps (t : Table) (e : LbEntry) (he : e ∈ leaderboard_cps t) :
    (0 < e.2 ∧ ∃ r ∈ t, r.2.username = e.1 ∧ cpsScore r.2 = e.2) ∧
    (leaderboard_cps t).Pairwise (fun a b => b.2 ≤ a.2) ∧
    leaderboard_cps [((1 : ℤ), lbClicker), ((2 : ℤ), lbMiner)] =
      [("miner", 50), ("clicker", 10)] := by
  refine ⟨?_, ?_, by decide⟩
  · have h1 : e ∈ sortDesc ((t.map fun r => (r.2.username, cpsScore r.2)).filter
        fun e => decide (0 < e.2)) := List.take_subset 10 _ he
    have h2 := mem_sortDesc.mp h1
    rw [List.mem_filter] at h2
    obtain ⟨hmem, hpos⟩ := h2
    refine ⟨of_decide_eq_true hpos, ?_⟩
    obtain ⟨r, hr, hre⟩ := List.mem_map.mp hmem
    exact ⟨r, hr, by rw [← hre], by rw [← hre]⟩
  · exact (pairwise_sortDesc _).sublist (List.take_sublist 10 _)

/-- C7 witness: the miner entry of the two-player example table. -/
theorem C7_leaderboard_cps_witness :
    ((0 : ℤ) < ("miner", (50 : ℤ)).2 ∧
      ∃ r ∈ [((1 : ℤ), lbClicker), ((2 : ℤ), lbMiner)],
        r.2.username = ("miner", (50 : ℤ)).1 ∧ cpsScore r.2 = ("miner", (50 : ℤ)).2) ∧
    (leaderboard_cps [((1 : ℤ), lbClicker), ((2 : ℤ), lbMiner)]).Pairwise
      (fun a b => b.2 ≤ a.2) ∧
    leaderboard_cps [((1 : ℤ), lbClicker), ((2 : ℤ), lbMiner)] =
      [("miner", 50), ("clicker", 10)] :=
  C7_leaderboard_cps [((1 : ℤ), lbClicker), ((2 : ℤ), lbMiner)]
    ("miner", (50 : ℤ)) (by decide)

/-- C8 counterexample: the claim says save fails with notFound when no
record with the id exists, but on the empty table save_game still answers
the success response (and leaves the table unchanged); the success
response is not the notFound response. -/
theorem C8_save_counterexample :
    save_game ([] : Table) 1 snapEmpty = (.saveOk, []) ∧
    Response.saveOk ≠ Response.notFound := by
  exact ⟨rfl, by decide⟩

/-- C8 amended: save_game always answers the success response, whether or
not a row with the id exists; when the id is absent the table is simply
left unchanged (the source never inspects the UPDATE row count). -/
theorem C8_save_always_ack (t : Table) (uid : ℤ) (gd : Snapshot) :
    (save_game t uid gd).1 = .saveOk ∧
    (lookup t uid = none → (save_game t uid gd).2 = t) := by
  constructor
  · rfl
  · intro h
    exact updateRow_of_lookup_none t uid _ h

/-- C8 witness: saving to an absent id on the empty table. -/
theorem C8_save_always_ack_witness :
    (save_game ([] : Table) 1 snapEmpty).1 = .saveOk ∧
    (lookup ([] : Table) 1 = none ∧ (save_game ([] : Table) 1 snapEmpty).2 = []) :=
  ⟨(C8_save_always_ack ([] : Table) 1 snapEmpty).1,
   rfl, (C8_save_always_ack ([] : Table) 1 snapEmpty).2 rfl⟩

/-- C10: every field the save snapshot omits is overwritten with the
save defaults of save_game (0 for crystals, counts, totals and bonus
levels, 1 for clickPower, each fixed base price for the price fields),
not preserved from the stored row. -/
theorem C10_save_defaults (gd : Snapshot) (s : PlayerState) :
    (gd.crystals = none → (applySnapshot gd s).crystals = 0) ∧
    (gd.clickPower = none → (applySnapshot gd s).clickpower = 1) ∧
    (gd.lifetime_crystals = none → (applySnapshot gd s).lifetime_crystals = 0) ∧
    (gd.autoclickers = none → (applySnapshot gd s).autoclickers = 0) ∧
    (gd.factories = none → (applySnapshot gd s).factories = 0) ∧
    (gd.mines = none → (applySnapshot gd s).mines = 0) ∧
    (gd.refineries = none → (applySnapshot gd s).refineries = 0) ∧
    (gd.quantumDrills = none → (applySnapshot gd s).quantumdrills = 0) ∧
    (gd.magicWells = none → (applySnapshot gd s).magicwells = 0) ∧
    (gd.starForges = none → (applySnapshot gd s).starforges = 0) ∧
    (gd.timeAccelerators = none → (applySnapshot gd s).timeaccelerators = 0) ∧
    (gd.voidHarvesters = none → (applySnapshot gd s).voidharvesters = 0) ∧
    (gd.totalClicks = none → (applySnapshot gd s).totalclicks = 0) ∧
    (gd.priceAutoclicker = none → (applySnapshot gd s).priceautoclicker = 5) ∧
    (gd.priceFactory = none → (applySnapshot gd s).pricefactory = 50) ∧
    (gd.priceMine = none → (applySnapshot gd s).pricemine = 500) ∧
    (gd.priceRefinery = none → (applySnapshot gd s).pricerefinery = 5000) ∧
    (gd.priceQuantumDrill = none → (applySnapshot gd s).pricequantumdrill = 50000) ∧
    (gd.priceMagicWell = none → (applySnapshot gd s).pricemagicwell = 500000) ∧
    (gd.priceStarForge = none → (applySnapshot gd s).pricestarforge = 5000000) ∧
    (gd.priceTimeAccelerator = none →
      (applySnapshot gd s).pricetimeaccelerator = 50000000) ∧
    (gd.priceVoidHarvester = none →
      (applySnapshot gd s).pricevoidharvester = 1000000000) ∧
    (gd.priceClickPower = none → (applySnapshot gd s).priceclickpower = 20) ∧
    (gd.rebirthCount = none → (applySnapshot gd s).rebirthcount = 0) ∧
    (gd.rebirthPoints = none → (applySnapshot gd s).rebirthpoints = 0) ∧
    (gd.bonusClickPower = none → (applySnapshot gd s).bonusclickpower = 0) ∧
    (gd.bonusProduction = none → (applySnapshot gd s).bonusproduction = 0) ∧
    (gd.bonusRebirthPoints = none → (applySnapshot gd s).bonusrebirthpoints = 0) ∧
    (gd.luckLevel = none → (applySnapshot gd s).lucklevel = 0) ∧
    (gd.mysteryBoxes = none → (applySnapshot gd s).mysteryboxes = 0) :=
  ⟨fun h => by simp [applySnapshot, h], fun h => by simp [applySnapshot, h],
   fun h => by simp [applySnapshot, h], fun h => by simp [applySnapshot, h],
   fun h => by simp [applySnapshot, h], fun h => by simp [applySnapshot, h],
   fun h => by simp [applySnapshot, h], fun h => by simp [applySnapshot, h],
   fun h => by simp [applySnapshot, h], fun h => by simp [applySnapshot, h],
   fun h => by simp [applySnapshot, h], fun h => by simp [applySnapshot, h],
   fun h => by simp [applySnapshot, h], fun h => by simp [applySnapshot, h],
   fun h => by simp [applySnapshot, h], fun h => by simp [applySnapshot, h],
   fun h => by simp [applySnapshot, h], fun h => by simp [applySnapshot, h],
   fun h => by simp [applySnapshot, h], fun h => by simp [applySnapshot, h],
   fun h => by simp [applySnapshot, h], fun h => by simp [applySnapshot, h],
   fun h => by simp [applySnapshot, h], fun h => by simp [applySnapshot, h],
   fun h => by simp [applySnapshot, h], fun h => by simp [applySnapshot, h],
   fun h => by simp [applySnapshot, h], fun h => by simp [applySnapshot, h],
   fun h => by simp [applySnapshot, h], fun h => by simp [applySnapshot, h]⟩

/-- C10 witness: the empty snapshot resets the crystals and clickpower of
a row that held 123456 crystals and clickpower 7. -/
theorem C10_save_defaults_witness :
    snapEmpty.crystals = none ∧
    (applySnapshot snapEmpty richPlayer).crystals = 0 ∧
    snapEmpty.clickPower = none ∧
    (applySnapshot snapEmpty richPlayer).clickpower = 1 ∧
    richPlayer.crystals = 123456 ∧ richPlayer.clickpower = 7 :=
  ⟨rfl, (C10_save_defaults snapEmpty richPlayer).1 rfl,
   rfl, (C10_save_defaults snapEmpty richPlayer).2.1 rfl,
   rfl, rfl⟩

end Krystaly
